import Mathlib

/-!
Shallow embedding of the protomesh-go AWS Lambda gRPC adapter
(src/aws/lambda/controller.go, the grpcServerStream file and the
convertResultError file) together with proofs about its behaviour.

Modelling conventions:
* Go strings and byte slices are `List Nat` with every element `< 256`
  (Go strings are immutable byte sequences).
* Protobuf messages are identified with their wire bytes: the external
  library calls `proto.Marshal` and `proto.Unmarshal` are modelled as the
  identity on byte lists, so marshalling is total and unmarshalling only
  fails through base64 decoding.  The base64 codec itself
  (`base64.RawStdEncoding`: standard alphabet, no padding, non-strict
  trailing bits) is modelled in full.
* `metadata.MD` (a Go map from string to string slice) is modelled
  extensionally as a function `String → List GoStr`; `metadata.Join`
  appends value lists key-wise, exactly as the Go implementation does.
* Mutation is modelled by explicit state passing; `error` results by
  `Option GoError`.
-/

namespace Protomesh

/-- A Go string / byte slice: a list of byte values. -/
abbrev GoStr := List Nat

/-- Byte list literal from a Lean string of ASCII characters. -/
def strBytes (s : String) : GoStr := s.data.map Char.toNat

/-! ### base64.RawStdEncoding (standard alphabet, no padding) -/

/-- The standard base64 alphabet: sextet value to ASCII code. -/
def sextetToChar (s : Nat) : Nat :=
  if s < 26 then 65 + s          -- A-Z
  else if s < 52 then 71 + s     -- a-z  (97 + (s - 26))
  else if s < 62 then s - 4      -- 0-9  (48 + (s - 52))
  else if s = 62 then 43         -- +
  else 47                        -- /

/-- Inverse alphabet lookup: ASCII code to sextet value, none if invalid. -/
def charToSextet (c : Nat) : Option Nat :=
  if 65 ≤ c ∧ c ≤ 90 then some (c - 65)
  else if 97 ≤ c ∧ c ≤ 122 then some (c - 97 + 26)
  else if 48 ≤ c ∧ c ≤ 57 then some (c - 48 + 52)
  else if c = 43 then some 62
  else if c = 47 then some 63
  else none

/-- Group bytes (3 at a time) into sextets, as the base64 encoder does. -/
def encodeSextets : List Nat → List Nat
  | [] => []
  | [b0] => [b0 / 4, b0 % 4 * 16]
  | [b0, b1] => [b0 / 4, b0 % 4 * 16 + b1 / 16, b1 % 16 * 4]
  | b0 :: b1 :: b2 :: rest =>
      b0 / 4 :: (b0 % 4 * 16 + b1 / 16) :: (b1 % 16 * 4 + b2 / 64) :: b2 % 64
        :: encodeSextets rest

/-- Regroup sextets (4 at a time) into bytes; a single trailing sextet is
invalid, and (like the non-strict Go decoder) spare trailing bits are
discarded. -/
def decodeSextets : List Nat → Option (List Nat)
  | [] => some []
  | [_] => none
  | [c0, c1] => some [c0 * 4 + c1 / 16]
  | [c0, c1, c2] => some [c0 * 4 + c1 / 16, c1 % 16 * 16 + c2 / 4]
  | c0 :: c1 :: c2 :: c3 :: rest =>
      (decodeSextets rest).map fun bs =>
        (c0 * 4 + c1 / 16) :: (c1 % 16 * 16 + c2 / 4) :: (c2 % 4 * 64 + c3) :: bs

/-- Map each character of a candidate base64 string to its sextet. -/
def mapCharsToSextets : List Nat → Option (List Nat)
  | [] => some []
  | c :: rest =>
      match charToSextet c, mapCharsToSextets rest with
      | some s, some ss => some (s :: ss)
      | _, _ => none

/-- `base64.RawStdEncoding.EncodeToString`. -/
def base64Encode (bs : GoStr) : GoStr := (encodeSextets bs).map sextetToChar

/-- `base64.RawStdEncoding.DecodeString`. -/
def base64Decode (s : GoStr) : Option GoStr :=
  match mapCharsToSextets s with
  | none => none
  | some ss => decodeSextets ss

/-! ### Data model: metadata, contexts, proxy request and response -/

/-- `metadata.MD` (map from string to string slice), modelled extensionally:
a Go map has no observable key order, so an MD is its key lookup function. -/
abbrev MD := String → List GoStr

/-- The zero-value (nil) metadata map. -/
def mdEmpty : MD := fun _ => []

/-- `metadata.Join`: for each key, the value lists are appended in argument
order. -/
def mdJoin (a b : MD) : MD := fun k => a k ++ b k

/-- `metadata.New` over a single-valued header map: each key (lowercased)
maps to its one-element value list. -/
def mdNew (hs : List (String × GoStr)) : MD :=
  fun k => hs.filterMap fun p => if p.1.toLower = k then some p.2 else none

/-- The two metadata slots a `context.Context` can carry here
(`metadata.NewIncomingContext` / `metadata.NewOutgoingContext`). -/
structure Ctx where
  incoming : Option MD
  outgoing : Option MD

/-- `events.APIGatewayProxyRequest`, restricted to the fields the adapter
reads. -/
structure ProxyRequest where
  path : String
  headers : List (String × GoStr)
  multiValueHeaders : MD
  body : GoStr
  isBase64Encoded : Bool

/-- `events.APIGatewayProxyResponse`, restricted to the fields the adapter
writes. -/
structure Response where
  statusCode : Nat
  body : GoStr
  isBase64Encoded : Bool
  multiValueHeaders : MD

/-- `lambda.Request`: the proxy request plus the resolved handler key. -/
structure Request where
  toProxy : ProxyRequest
  handlerKey : String

/-- A protobuf message, identified with its wire bytes (`proto.Marshal` and
`proto.Unmarshal` are the identity in this model). -/
abbrev Msg := GoStr

/-- A Go `error` value: either an error carrying a gRPC status
(recognized by `status.FromError`) or a plain error. -/
inductive GoError where
  | statusErr (code : Nat) (msg : GoStr)
  | generic (msg : GoStr)
deriving DecidableEq

/-- The `any` argument of `convertResultError`: an error, or a non-error
value carrying only its type description (all a `%T` format can show). -/
inductive ErrVal where
  | err (e : GoError)
  | nonError (typeName : GoStr)
deriving DecidableEq

/-- `status.FromError` succeeding with code `codes.NotFound` (= 5). -/
def isNotFoundStatus : GoError → Bool
  | .statusErr code _ => code == 5
  | .generic _ => false

/-! ### Envelope codec (`Request.UnmarshalProtobuf`, `Response.MarshalProtobuf`) -/

/-- `Request.UnmarshalProtobuf`: base64-decode the body when the flag is
set, else use the raw bytes; `proto.Unmarshal` is the identity on bytes in
this model, so failure comes only from invalid base64. -/
def Request.UnmarshalProtobuf (r : Request) : Option Msg :=
  if r.toProxy.isBase64Encoded then base64Decode r.toProxy.body
  else some r.toProxy.body

/-- `Response.MarshalProtobuf`: serialize (identity here, and total, so the
marshal-failure early return is unreachable in the model); a non-empty
result is base64-encoded with the flag set, an empty one clears body and
flag. -/
def Response.MarshalProtobuf (r : Response) (m : Msg) : Response :=
  if 0 < m.length then
    { r with body := base64Encode m, isBase64Encoded := true }
  else
    { r with body := [], isBase64Encoded := false }

/-! ### Status translator (`convertResultError`) -/

/-- Body text of the defensive fallback:
`fmt.Sprintf("Invalid error type: %T", err)`. -/
def invalidErrorTypeBody (typeName : GoStr) : GoStr :=
  strBytes "Invalid error type: " ++ typeName

/-- `convertResultError`: non-errors get status 500, a diagnostic body and
a fresh generic error; status-carrying errors set the body to the status
message, clear the base64 flag and switch on the code; every error is
returned unchanged. -/
def convertResultError (res : Response) (v : ErrVal) : Response × Option GoError :=
  match v with
  | .err e =>
      match e with
      | .statusErr code msg =>
          let res := { res with body := msg, isBase64Encoded := false }
          let res :=
            if code = 3 then { res with statusCode := 400 }        -- InvalidArgument
            else if code = 5 then { res with statusCode := 404 }   -- NotFound
            else if code = 6 then { res with statusCode := 409 }   -- AlreadyExists
            else if code = 7 then { res with statusCode := 403 }   -- PermissionDenied
            else if code = 16 then { res with statusCode := 401 }  -- Unauthenticated
            else if code = 8 then { res with statusCode := 429 }   -- ResourceExhausted
            else if code = 9 then { res with statusCode := 412 }   -- FailedPrecondition
            else if code = 10 then { res with statusCode := 409 }  -- Aborted
            else if code = 11 then { res with statusCode := 400 }  -- OutOfRange
            else if code = 12 then { res with statusCode := 501 }  -- Unimplemented
            else if code = 13 then { res with statusCode := 500 }  -- Internal
            else if code = 14 then { res with statusCode := 503 }  -- Unavailable
            else if code = 15 then { res with statusCode := 500 }  -- DataLoss
            else res
          (res, some e)
      | .generic _ =>
          -- status.FromError reports not ok: the response is untouched and
          -- the original error is returned unchanged
          (res, some e)
  | .nonError t =>
      ({ res with statusCode := 500, body := invalidErrorTypeBody t },
        some (.generic (invalidErrorTypeBody t)))

/-! ### Synthetic stream adapter (`grpcServerStream`) -/

/-- `grpcServerStream`: the call context plus the request/response pair it
wraps (pointer fields, modelled by state passing). -/
structure GrpcServerStream where
  ctx : Ctx
  req : Request
  res : Response

/-- `newGrpcServerStream`. -/
def newGrpcServerStream (ctx : Ctx) (req : Request) (res : Response) :
    GrpcServerStream :=
  { ctx := ctx, req := req, res := res }

/-- `grpcServerStream.SetTrailer`: merge (append) the given metadata into
the outgoing metadata of the stored context. -/
def GrpcServerStream.SetTrailer (g : GrpcServerStream) (m : MD) : GrpcServerStream :=
  let outMeta := g.ctx.outgoing.getD mdEmpty
  { g with ctx := { g.ctx with outgoing := some (mdJoin outMeta m) } }

/-- `grpcServerStream.SetHeader` funnels into `SetTrailer` and returns nil. -/
def GrpcServerStream.SetHeader (g : GrpcServerStream) (m : MD) :
    GrpcServerStream × Option GoError :=
  (g.SetTrailer m, none)

/-- `grpcServerStream.SendHeader` funnels into `SetTrailer` and returns nil. -/
def GrpcServerStream.SendHeader (g : GrpcServerStream) (m : MD) :
    GrpcServerStream × Option GoError :=
  (g.SetTrailer m, none)

/-- `grpcServerStream.SendMsg`: a nil message clears the body only;
otherwise marshal into the response (total in this model, so the
marshal-failure branch setting status 500 is unreachable). -/
def GrpcServerStream.SendMsg (g : GrpcServerStream) (m : Option Msg) :
    GrpcServerStream × Option GoError :=
  match m with
  | none => ({ g with res := { g.res with body := [] } }, none)
  | some msg => ({ g with res := g.res.MarshalProtobuf msg }, none)

/-- `grpcServerStream.RecvMsg`: unmarshal the request; on failure set
status 400 and a diagnostic body and return the error. -/
def GrpcServerStream.RecvMsg (g : GrpcServerStream) :
    GrpcServerStream × Option Msg × Option GoError :=
  match g.req.UnmarshalProtobuf with
  | some m => (g, some m, none)
  | none =>
      ({ g with res := { g.res with
            statusCode := 400,
            body := strBytes "Failed to unmarshal request" } },
        none, some (.generic (strBytes "Failed to unmarshal request")))

/-- One observable interaction of a streaming handler with its stream. -/
inductive StreamOp where
  | setHeader (m : MD)
  | sendHeader (m : MD)
  | setTrailer (m : MD)
  | sendMsg (m : Option Msg)
  | recvMsg

/-- Run a trace of stream interactions over the adapter state. -/
def runStreamOps : List StreamOp → GrpcServerStream → GrpcServerStream
  | [], g => g
  | op :: rest, g =>
      let g1 :=
        match op with
        | .setHeader m => (g.SetHeader m).1
        | .sendHeader m => (g.SendHeader m).1
        | .setTrailer m => g.SetTrailer m
        | .sendMsg m => (g.SendMsg m).1
        | .recvMsg => (g.RecvMsg).1
      runStreamOps rest g1

/-- The metadata arguments a trace attaches via SetHeader, SendHeader or
SetTrailer, in order. -/
def attachedMeta (ops : List StreamOp) : List MD :=
  ops.filterMap fun op =>
    match op with
    | .setHeader m => some m
    | .sendHeader m => some m
    | .setTrailer m => some m
    | _ => none

/-! ### Method binder (`RegisterGRPCService`) and dispatcher (`HandleLambda`) -/

/-- `lambda.Handler`: `func(context.Context, *Request, *Response) error`,
with the response mutation made explicit. -/
abbrev Handler := Ctx → Request → Response → Response × Option GoError

/-- The registry field `handlers map[string]Handler` of the controller. -/
abbrev Handlers := String → Option Handler

/-- `Controller.RegisterHandler`: write the handler into the map. -/
def RegisterHandler (hs : Handlers) (key : String) (h : Handler) : Handlers :=
  fun k => if k = key then some h else hs k

/-- What a dynamically invoked unary method produces.  `finalCtx` is the
(possibly derived) context the method ended with: Go contexts are
immutable values, so this context is NOT observable by the caller — it is
carried here only so that metadata the method attached during the call can
be talked about. -/
structure UnaryOutcome where
  finalCtx : Ctx
  output : Option Msg
  error : Option GoError

/-- A unary method of the bound service:
`func(ctx context.Context, in *M) (*M2, error)`. -/
abbrev UnaryMethod := Ctx → Msg → UnaryOutcome

/-- The inbound metadata fold:
`metadata.Join(metadata.New(req.Headers), req.MultiValueHeaders)`. -/
def inboundMeta (p : ProxyRequest) : MD :=
  mdJoin (mdNew p.headers) p.multiValueHeaders

/-- The closure `RegisterGRPCService` builds for one unary method.  The
typed model fixes the result shape to (output, error), so the
`len(result) != 2` defensive branch is unreachable.  Note the write-back
reads the outgoing metadata of `ctx` — the handler's outer context, which
the method invocation cannot have changed — not of `callCtx` or of any
context the method derived. -/
def unaryHandler (method : UnaryMethod) : Handler := fun ctx req res =>
  let inMeta := inboundMeta req.toProxy
  let callCtx : Ctx := { incoming := some inMeta, outgoing := some mdEmpty }
  match req.UnmarshalProtobuf with
  | none =>
      ({ res with
          statusCode := 400,
          body := strBytes "Failed to unmarshal request" },
        some (.generic (strBytes "Failed to unmarshal request")))
  | some callInput =>
      let outcome := method callCtx callInput
      let res :=
        match ctx.outgoing with
        | some outMeta => { res with multiValueHeaders := outMeta }
        | none => res
      match outcome.error with
      | some e => convertResultError res (.err e)
      | none =>
          match outcome.output with
          | none => ({ res with body := [] }, none)
          | some out => (res.MarshalProtobuf out, none)

/-- The closure `RegisterGRPCService` builds for one server-streaming
method, with the streaming handler abstracted by its interaction trace
`ops` and returned error `retErr`. -/
def streamHandler (ops : List StreamOp) (retErr : Option GoError) : Handler :=
  fun _ctx req res =>
    let inMeta := inboundMeta req.toProxy
    let callCtx : Ctx := { incoming := some inMeta, outgoing := some mdEmpty }
    let serverStream := newGrpcServerStream callCtx req res
    let serverStream := runStreamOps ops serverStream
    let res := { serverStream.res with
      multiValueHeaders := serverStream.ctx.outgoing.getD mdEmpty }
    match retErr with
    | some e => convertResultError res (.err e)
    | none => ({ res with statusCode := 102 }, none)    -- http.StatusProcessing

/-- `grpc.MethodDesc`, reduced to the method name (the reflective lookup
is replaced by the typed service tables below). -/
structure MethodDesc where
  methodName : String

/-- `grpc.StreamDesc`. -/
structure StreamDesc where
  streamName : String
  serverStreams : Bool
  clientStreams : Bool

/-- `grpc.ServiceDesc`, reduced to the fields the binder reads. -/
structure ServiceDesc where
  serviceName : String
  methods : List MethodDesc
  streams : List StreamDesc

/-- `strings.Join([]string{"/", desc.ServiceName, "/", name}, "")`. -/
def methodKey (serviceName name : String) : String :=
  "/" ++ serviceName ++ "/" ++ name

/-- `Controller.RegisterGRPCService`: bind every unary method under its
routing key; bind a stream only when it is server-streaming and not
client-streaming — other stream descriptors are skipped.  The service
implementation is supplied as typed tables indexed by method name, which
replace `reflect.ValueOf(svc).MethodByName` and `stream.Handler`. -/
def RegisterGRPCService (desc : ServiceDesc) (svcUnary : String → UnaryMethod)
    (svcStream : String → List StreamOp × Option GoError) (hs : Handlers) :
    Handlers :=
  let hs := desc.methods.foldl
    (fun acc m =>
      RegisterHandler acc (methodKey desc.serviceName m.methodName)
        (unaryHandler (svcUnary m.methodName)))
    hs
  desc.streams.foldl
    (fun acc s =>
      if s.serverStreams && !s.clientStreams then
        RegisterHandler acc (methodKey desc.serviceName s.streamName)
          (streamHandler (svcStream s.streamName).1 (svcStream s.streamName).2)
      else acc)
    hs

/-- The outcome of `c.Matcher(ctx, proxyReq)`. -/
inductive MatchResult where
  | found (key : String)
  | failed (e : GoError)

/-- `lambda.Matcher`. -/
abbrev Matcher := Ctx → ProxyRequest → MatchResult

/-- The response `HandleLambda` starts from:
`&events.APIGatewayProxyResponse{StatusCode: http.StatusNotFound}` with
zero-valued body, flag and headers. -/
def defaultResponse : Response :=
  { statusCode := 404, body := [], isBase64Encoded := false,
    multiValueHeaders := mdEmpty }

/-- `Controller.HandleLambda`: initialize a 404 response; resolve the key
(a not-found status from the matcher returns the default response, any
other matcher error returns it with status 500); a registry miss returns
the default response; otherwise set status 200, run the handler, and on a
handler error force status 500 when the accumulated status is still below
400.  Every path returns a nil Go error. -/
def HandleLambda (matcher : Matcher) (handlers : Handlers) (ctx : Ctx)
    (proxyReq : ProxyRequest) : Response × Option GoError :=
  let res := defaultResponse
  match matcher ctx proxyReq with
  | .failed e =>
      if isNotFoundStatus e then (res, none)
      else ({ res with statusCode := 500 }, none)
  | .found key =>
      match handlers key with
      | none => (res, none)
      | some handler =>
          let req : Request := { toProxy := proxyReq, handlerKey := key }
          let res := { res with statusCode := 200 }
          let (res, herr) := handler ctx req res
          match herr with
          | some _ =>
              if res.statusCode < 400 then ({ res with statusCode := 500 }, none)
              else (res, none)
          | none => (res, none)

/-! ### The fixed status table as the specification states it, and concrete
inputs used by witnesses and counterexamples -/

/-- The fixed domain-to-transport status table transcribed from the
specification (section 4.3): invalid-argument→400, not-found→404,
already-exists→409, permission-denied→403, unauthenticated→401,
resource-exhausted→429, failed-precondition→412, aborted→409,
out-of-range→400, unimplemented→501, internal→500, unavailable→503,
data-loss→500; `none` for an unrecognized code. -/
def specStatusTable (code : Nat) : Option Nat :=
  if code = 3 then some 400
  else if code = 5 then some 404
  else if code = 6 then some 409
  else if code = 7 then some 403
  else if code = 16 then some 401
  else if code = 8 then some 429
  else if code = 9 then some 412
  else if code = 10 then some 409
  else if code = 11 then some 400
  else if code = 12 then some 501
  else if code = 13 then some 500
  else if code = 14 then some 503
  else if code = 15 then some 500
  else none

/-- A context carrying no metadata, as `HandleLambda` typically receives. -/
def exCtx : Ctx := { incoming := none, outgoing := none }

/-- A minimal proxy request: empty body, base64 flag clear. -/
def exProxyReq : ProxyRequest :=
  { path := "/svc/Echo", headers := [], multiValueHeaders := mdEmpty,
    body := [], isBase64Encoded := false }

/-- The minimal request with its resolved key. -/
def exReq : Request := { toProxy := exProxyReq, handlerKey := "/svc/Echo" }

/-- Metadata holding one entry: key `k`, single value `v` (byte 118). -/
def exAttachedMD : MD := fun k => if k = "k" then [[118]] else []

/-- A unary method that attaches `exAttachedMD` to the outgoing metadata of
its (derived) context during the call and succeeds with no output. -/
def exAttachingMethod : UnaryMethod := fun c _ =>
  { finalCtx :=
      { c with outgoing := some (mdJoin (c.outgoing.getD mdEmpty) exAttachedMD) },
    output := none, error := none }

/-- A unary method that succeeds with a nil output message. -/
def exNilMethod : UnaryMethod := fun c _ =>
  { finalCtx := c, output := none, error := none }

/-- A handler that leaves the response alone and fails with a plain error. -/
def exFailingHandler : Handler := fun _ _ res => (res, some (.generic []))

/-- A service descriptor holding a single bidirectional-streaming method. -/
def exBidiDesc : ServiceDesc :=
  { serviceName := "svc", methods := [],
    streams := [{ streamName := "Bidi", serverStreams := true,
                  clientStreams := true }] }

/-- A unary method table for the example service. -/
def exSvcUnary : String → UnaryMethod := fun _ => exNilMethod

/-- A streaming handler table for the example service: no interactions,
success. -/
def exSvcStream : String → List StreamOp × Option GoError := fun _ => ([], none)

/-! ### Theorems -/

theorem charToSextet_sextetToChar_fin :
    ∀ s : Fin 64, charToSextet (sextetToChar s.val) = some s.val := by decide

theorem charToSextet_sextetToChar (s : Nat) (h : s < 64) :
    charToSextet (sextetToChar s) = some s :=
  charToSextet_sextetToChar_fin ⟨s, h⟩

theorem encodeSextets_lt (bs : List Nat) (h : ∀ b ∈ bs, b < 256) :
    ∀ s ∈ encodeSextets bs, s < 64 := by
  match bs with
  | [] => simp [encodeSextets]
  | [b0] =>
      have h0 := h b0 (by simp)
      simp only [encodeSextets, List.mem_cons, List.not_mem_nil, or_false]
      rintro s (rfl | rfl) <;> omega
  | [b0, b1] =>
      have h0 := h b0 (by simp)
      have h1 := h b1 (by simp)
      simp only [encodeSextets, List.mem_cons, List.not_mem_nil, or_false]
      rintro s (rfl | rfl | rfl) <;> omega
  | b0 :: b1 :: b2 :: rest =>
      have h0 := h b0 (by simp)
      have h1 := h b1 (by simp)
      have h2 := h b2 (by simp)
      have ih := encodeSextets_lt rest (fun b hb => h b (by simp [hb]))
      simp only [encodeSextets, List.mem_cons]
      rintro s (rfl | rfl | rfl | rfl | hs)
      · omega
      · omega
      · omega
      · omega
      · exact ih s hs

theorem decodeSextets_encodeSextets (bs : List Nat) (h : ∀ b ∈ bs, b < 256) :
    decodeSextets (encodeSextets bs) = some bs := by
  match bs with
  | [] => rfl
  | [b0] =>
      have h0 := h b0 (by simp)
      simp only [encodeSextets, decodeSextets, Option.some.injEq, List.cons.injEq,
        and_true]
      omega
  | [b0, b1] =>
      have h0 := h b0 (by simp)
      have h1 := h b1 (by simp)
      simp only [encodeSextets, decodeSextets, Option.some.injEq]
      have e0 : b0 / 4 * 4 + (b0 % 4 * 16 + b1 / 16) / 16 = b0 := by omega
      have e1 : (b0 % 4 * 16 + b1 / 16) % 16 * 16 + b1 % 16 * 4 / 4 = b1 := by omega
      rw [e0, e1]
  | b0 :: b1 :: b2 :: rest =>
      have h0 := h b0 (by simp)
      have h1 := h b1 (by simp)
      have h2 := h b2 (by simp)
      have ih := decodeSextets_encodeSextets rest (fun b hb => h b (by simp [hb]))
      simp only [encodeSextets, decodeSextets, ih, Option.map_some]
      have e0 : b0 / 4 * 4 + (b0 % 4 * 16 + b1 / 16) / 16 = b0 := by omega
      have e1 : (b0 % 4 * 16 + b1 / 16) % 16 * 16 + (b1 % 16 * 4 + b2 / 64) / 4 = b1 := by
        omega
      have e2 : (b1 % 16 * 4 + b2 / 64) % 4 * 64 + b2 % 64 = b2 := by omega
      rw [e0, e1, e2]
      rfl

theorem mapCharsToSextets_map (l : List Nat) (h : ∀ s ∈ l, s < 64) :
    mapCharsToSextets (l.map sextetToChar) = some l := by
  induction l with
  | nil => rfl
  | cons s rest ih =>
      have hs := h s (by simp)
      have ihr := ih (fun x hx => h x (by simp [hx]))
      simp only [List.map_cons, mapCharsToSextets, charToSextet_sextetToChar s hs, ihr]

/-- Round trip of the base64 codec on valid byte lists. -/
theorem base64Decode_base64Encode (bs : GoStr) (h : ∀ b ∈ bs, b < 256) :
    base64Decode (base64Encode bs) = some bs := by
  unfold base64Decode base64Encode
  rw [mapCharsToSextets_map _ (encodeSextets_lt bs h)]
  exact decodeSextets_encodeSextets bs h

/-- Claim C1: for every error carrying a recognized domain status,
`convertResultError` sets the response body to the status message
unmodified, clears the base64 flag, and sets the transport status code
exactly per the fixed table of the specification; for a status code
outside the table the previously-set status code is left unchanged. -/
theorem convertResultError_status_table (res : Response) (code : Nat)
    (msg : GoStr) :
    (convertResultError res (.err (.statusErr code msg))).1 =
      { res with
          body := msg,
          isBase64Encoded := false,
          statusCode := (specStatusTable code).getD res.statusCode } := by
  unfold convertResultError specStatusTable
  dsimp only
  by_cases h1 : code = 3
  · subst h1; rfl
  simp only [if_neg h1]
  by_cases h2 : code = 5
  · subst h2; rfl
  simp only [if_neg h2]
  by_cases h3 : code = 6
  · subst h3; rfl
  simp only [if_neg h3]
  by_cases h4 : code = 7
  · subst h4; rfl
  simp only [if_neg h4]
  by_cases h5 : code = 16
  · subst h5; rfl
  simp only [if_neg h5]
  by_cases h6 : code = 8
  · subst h6; rfl
  simp only [if_neg h6]
  by_cases h7 : code = 9
  · subst h7; rfl
  simp only [if_neg h7]
  by_cases h8 : code = 10
  · subst h8; rfl
  simp only [if_neg h8]
  by_cases h9 : code = 11
  · subst h9; rfl
  simp only [if_neg h9]
  by_cases h10 : code = 12
  · subst h10; rfl
  simp only [if_neg h10]
  by_cases h11 : code = 13
  · subst h11; rfl
  simp only [if_neg h11]
  by_cases h12 : code = 14
  · subst h12; rfl
  simp only [if_neg h12]
  by_cases h13 : code = 15
  · subst h13; rfl
  simp only [if_neg h13]
  rfl

/-- Claim C7: `convertResultError` on a value that is not an error sets
status 500, a diagnostic body naming the received type, and returns a
fresh (non-nil) generic error; on any error value the original error is
returned unchanged. -/
theorem convertResultError_fallback_and_identity (res : Response)
    (t : GoStr) (e : GoError) :
    convertResultError res (.nonError t) =
      ({ res with statusCode := 500, body := invalidErrorTypeBody t },
        some (.generic (invalidErrorTypeBody t)))
    ∧ (convertResultError res (.err e)).2 = some e := by
  refine ⟨rfl, ?_⟩
  cases e <;> simp [convertResultError]

/-- Claim C2: encoding a message with a non-empty serialization yields a
base64 body with the flag set, and decoding that body recovers the
message; encoding a message with an empty serialization yields the empty
body with the flag cleared. -/
theorem marshal_unmarshal_roundtrip (res : Response) (p : ProxyRequest)
    (key : String) (m : Msg) (hne : m ≠ []) (hbytes : ∀ b ∈ m, b < 256) :
    (res.MarshalProtobuf m).isBase64Encoded = true
    ∧ Request.UnmarshalProtobuf
        { toProxy :=
            { p with
                body := (res.MarshalProtobuf m).body,
                isBase64Encoded := (res.MarshalProtobuf m).isBase64Encoded },
          handlerKey := key } = some m
    ∧ res.MarshalProtobuf [] = { res with body := [], isBase64Encoded := false } := by
  have hlen : 0 < m.length := List.length_pos.mpr hne
  refine ⟨?_, ?_, ?_⟩
  · simp [Response.MarshalProtobuf, hlen]
  · simp [Response.MarshalProtobuf, hlen, Request.UnmarshalProtobuf,
      base64Decode_base64Encode m hbytes]
  · rfl

/-- Witness for C2 at the one-byte message `[1]`. -/
theorem marshal_unmarshal_roundtrip_witness :
    (defaultResponse.MarshalProtobuf [1]).isBase64Encoded = true
    ∧ Request.UnmarshalProtobuf
        { toProxy :=
            { exProxyReq with
                body := (defaultResponse.MarshalProtobuf [1]).body,
                isBase64Encoded :=
                  (defaultResponse.MarshalProtobuf [1]).isBase64Encoded },
          handlerKey := "/svc/Echo" } = some [1]
    ∧ defaultResponse.MarshalProtobuf [] =
        { defaultResponse with body := [], isBase64Encoded := false } :=
  marshal_unmarshal_roundtrip defaultResponse exProxyReq "/svc/Echo" [1]
    (by decide) (by decide)

/-- Claim C3: when the routing key resolves but no handler is registered,
`HandleLambda` returns the initial 404 response with empty body (the
result is the untouched default response for every handler table missing
the key, so no handler runs); a matcher error carrying the not-found
status yields the same 404 outcome; any other matcher error yields
status 500. -/
theorem handleLambda_not_found_paths (matcher : Matcher) (handlers : Handlers)
    (ctx : Ctx) (p : ProxyRequest) (key : String) (e : GoError) :
    (matcher ctx p = .found key → handlers key = none →
      HandleLambda matcher handlers ctx p = (defaultResponse, none))
    ∧ (matcher ctx p = .failed e → isNotFoundStatus e = true →
      HandleLambda matcher handlers ctx p = (defaultResponse, none))
    ∧ (matcher ctx p = .failed e → isNotFoundStatus e = false →
      HandleLambda matcher handlers ctx p =
        ({ defaultResponse with statusCode := 500 }, none)) := by
  refine ⟨?_, ?_, ?_⟩
  · intro hm hh
    unfold HandleLambda
    rw [hm]
    simp [hh]
  · intro hm hnf
    unfold HandleLambda
    rw [hm]
    simp [hnf]
  · intro hm hnf
    unfold HandleLambda
    rw [hm]
    simp [hnf]

/-- Witness for C3: an unregistered key, a not-found matcher status and a
plain matcher error, on concrete inputs. -/
theorem handleLambda_not_found_paths_witness :
    HandleLambda (fun _ _ => .found "/svc/Missing") (fun _ => none) exCtx
        exProxyReq = (defaultResponse, none)
    ∧ HandleLambda (fun _ _ => .failed (.statusErr 5 [])) (fun _ => none) exCtx
        exProxyReq = (defaultResponse, none)
    ∧ HandleLambda (fun _ _ => .failed (.generic [])) (fun _ => none) exCtx
        exProxyReq = ({ defaultResponse with statusCode := 500 }, none) :=
  ⟨(handleLambda_not_found_paths (fun _ _ => .found "/svc/Missing")
      (fun _ => none) exCtx exProxyReq "/svc/Missing" (.generic [])).1 rfl rfl,
   (handleLambda_not_found_paths (fun _ _ => .failed (.statusErr 5 []))
      (fun _ => none) exCtx exProxyReq "" (.statusErr 5 [])).2.1 rfl rfl,
   (handleLambda_not_found_paths (fun _ _ => .failed (.generic []))
      (fun _ => none) exCtx exProxyReq "" (.generic [])).2.2 rfl rfl⟩

/-- Claim C4: `HandleLambda` returns a nil Go error on every path; and
when the invoked handler fails while the accumulated status is still
below 400, the status is forced to 500 — otherwise the response is
returned exactly as the handler accumulated it. -/
theorem handleLambda_total_and_forces_500 (matcher : Matcher)
    (handlers : Handlers) (ctx : Ctx) (p : ProxyRequest) (key : String)
    (handler : Handler) (r : Response) (e : GoError) :
    (HandleLambda matcher handlers ctx p).2 = none
    ∧ (matcher ctx p = .found key → handlers key = some handler →
        handler ctx { toProxy := p, handlerKey := key }
          { defaultResponse with statusCode := 200 } = (r, some e) →
        (HandleLambda matcher handlers ctx p).1 =
          if r.statusCode < 400 then { r with statusCode := 500 } else r) := by
  constructor
  · unfold HandleLambda
    rcases matcher ctx p with key' | e'
    · dsimp only
      rcases handlers key' with _ | handler'
      · rfl
      · dsimp only
        rcases handler' ctx { toProxy := p, handlerKey := key' }
            { defaultResponse with statusCode := 200 } with ⟨r', herr⟩
        rcases herr with _ | e''
        · rfl
        · dsimp only
          split <;> rfl
    · dsimp only
      split <;> rfl
  · intro hm hh hcall
    unfold HandleLambda
    rw [hm]
    dsimp only
    rw [hh]
    dsimp only
    rw [hcall]
    dsimp only
    split <;> rfl

/-- Witness for C4: a handler that fails with the status still at 200 is
forced to 500. -/
theorem handleLambda_total_and_forces_500_witness :
    (HandleLambda (fun _ _ => .found "/svc/Echo")
        (RegisterHandler (fun _ => none) "/svc/Echo" exFailingHandler) exCtx
        exProxyReq).2 = none
    ∧ (HandleLambda (fun _ _ => .found "/svc/Echo")
        (RegisterHandler (fun _ => none) "/svc/Echo" exFailingHandler) exCtx
        exProxyReq).1 = { defaultResponse with statusCode := 500 } := by
  have h := handleLambda_total_and_forces_500 (fun _ _ => .found "/svc/Echo")
    (RegisterHandler (fun _ => none) "/svc/Echo" exFailingHandler) exCtx
    exProxyReq "/svc/Echo" exFailingHandler
    { defaultResponse with statusCode := 200 } (.generic [])
  refine ⟨h.1, ?_⟩
  have h2 := h.2 rfl (by simp [RegisterHandler]) rfl
  simpa using h2

theorem runStreamOps_outgoing (ops : List StreamOp) (g : GrpcServerStream)
    (o : MD) (h : g.ctx.outgoing = some o) :
    (runStreamOps ops g).ctx.outgoing =
      some (List.foldl mdJoin o (attachedMeta ops)) := by
  induction ops generalizing g o with
  | nil => simpa [runStreamOps, attachedMeta] using h
  | cons op rest ih =>
      cases op with
      | setHeader m =>
          simp only [runStreamOps, attachedMeta, List.filterMap_cons, List.foldl_cons]
          exact ih _ (mdJoin o m) (by simp [GrpcServerStream.SetHeader,
            GrpcServerStream.SetTrailer, h])
      | sendHeader m =>
          simp only [runStreamOps, attachedMeta, List.filterMap_cons, List.foldl_cons]
          exact ih _ (mdJoin o m) (by simp [GrpcServerStream.SendHeader,
            GrpcServerStream.SetTrailer, h])
      | setTrailer m =>
          simp only [runStreamOps, attachedMeta, List.filterMap_cons, List.foldl_cons]
          exact ih _ (mdJoin o m) (by simp [GrpcServerStream.SetTrailer, h])
      | sendMsg m =>
          simp only [runStreamOps, attachedMeta, List.filterMap_cons]
          have hctx : ((g.SendMsg m).1).ctx.outgoing = some o := by
            cases m <;> simpa [GrpcServerStream.SendMsg] using h
          exact ih _ o hctx
      | recvMsg =>
          simp only [runStreamOps, attachedMeta, List.filterMap_cons]
          have hctx : ((g.RecvMsg).1).ctx.outgoing = some o := by
            unfold GrpcServerStream.RecvMsg
            cases g.req.UnmarshalProtobuf <;> simpa using h
          exact ih _ o hctx

theorem foldl_mdJoin_apply (ms : List MD) (o : MD) (k : String) :
    List.foldl mdJoin o ms k = o k ++ (ms.map (fun m => m k)).flatten := by
  induction ms generalizing o with
  | nil => simp
  | cons m rest ih =>
      simp only [List.foldl_cons, List.map_cons, List.flatten_cons, ih (mdJoin o m)]
      simp [mdJoin, List.append_assoc]

/-- Claim C5: a server-streaming invocation whose handler returns nil gets
status 102 (processing), a nil dispatched error, and response headers that
hold, key by key, the concatenation in call order of every metadata value
attached during the call through SetHeader, SendHeader or SetTrailer —
each attachment is appended to, never overwrites, the earlier ones. -/
theorem streamHandler_success_processing_metadata (ops : List StreamOp)
    (ctx : Ctx) (req : Request) (res : Response) (k : String) :
    (streamHandler ops none ctx req res).1.statusCode = 102
    ∧ (streamHandler ops none ctx req res).2 = none
    ∧ (streamHandler ops none ctx req res).1.multiValueHeaders k =
        ((attachedMeta ops).map (fun m => m k)).flatten := by
  unfold streamHandler newGrpcServerStream
  have hout := runStreamOps_outgoing ops
    { ctx := { incoming := some (inboundMeta req.toProxy),
               outgoing := some mdEmpty },
      req := req, res := res } mdEmpty rfl
  refine ⟨rfl, rfl, ?_⟩
  dsimp only
  rw [hout]
  simp only [Option.getD_some]
  rw [foldl_mdJoin_apply]
  rfl

/-- Claim C6 evaluated at a failing input: a unary method attaches
metadata (key `k`, value `v`) to the outgoing side of its derived call
context and succeeds; the adapter reads the outgoing metadata of the
pre-call outer context instead, so the dispatched response headers at `k`
stay empty even though the metadata the method attached there is
non-empty. -/
theorem unary_metadata_writeback_divergence :
    (unaryHandler exAttachingMethod exCtx exReq defaultResponse).1.multiValueHeaders
        "k" = []
    ∧ (exAttachingMethod
        { incoming := some (inboundMeta exProxyReq), outgoing := some mdEmpty }
        []).finalCtx.outgoing.getD mdEmpty "k" = [[118]]
    ∧ (unaryHandler exAttachingMethod exCtx exReq defaultResponse).2 = none
    ∧ (HandleLambda (fun _ _ => .found "/svc/Echo")
        (RegisterHandler (fun _ => none) "/svc/Echo"
          (unaryHandler exAttachingMethod)) exCtx
        exProxyReq).1.multiValueHeaders "k" = [] := by
  refine ⟨rfl, ?_, rfl, ?_⟩
  · simp [exAttachingMethod, mdJoin, mdEmpty, exAttachedMD]
  · simp [HandleLambda, RegisterHandler, unaryHandler, exAttachingMethod,
      exReq, exCtx, exProxyReq, Request.UnmarshalProtobuf, defaultResponse,
      mdEmpty]

/-- Claim C8 counterexample: registering a service descriptor holding a
bidirectional-streaming method completes as a plain registry update that
binds nothing and surfaces no error — the registration result is the
unchanged registry, and the problem shows up only at call time as the
unregistered-key 404 outcome. -/
theorem registerGRPCService_bidi_counterexample :
    RegisterGRPCService exBidiDesc exSvcUnary exSvcStream (fun _ => none)
        "/svc/Bidi" = none
    ∧ HandleLambda (fun _ _ => .found "/svc/Bidi")
        (RegisterGRPCService exBidiDesc exSvcUnary exSvcStream (fun _ => none))
        exCtx exProxyReq = (defaultResponse, none) :=
  ⟨rfl, rfl⟩

theorem streams_foldl_skip (serviceName : String)
    (svcStream : String → List StreamOp × Option GoError)
    (l : List StreamDesc) (acc : Handlers)
    (h : ∀ s ∈ l, s.clientStreams = true) :
    l.foldl (fun acc s =>
      if s.serverStreams && !s.clientStreams then
        RegisterHandler acc (methodKey serviceName s.streamName)
          (streamHandler (svcStream s.streamName).1 (svcStream s.streamName).2)
      else acc) acc = acc := by
  induction l generalizing acc with
  | nil => rfl
  | cons s rest ih =>
      have hs := h s (by simp)
      rw [List.foldl_cons, hs]
      simp only [Bool.not_true, Bool.and_false, Bool.false_eq_true, if_false]
      exact ih acc (fun x hx => h x (by simp [hx]))

/-- Claim C8 (amended): `RegisterGRPCService` does not bind
client-streaming or bidirectional-streaming method descriptors —
registration silently skips them, leaving the registry unchanged and
surfacing no error at registration (build) time; a call to such a method
key is answered at call time with the unregistered-key 404 outcome. -/
theorem registerGRPCService_skips_client_streams (desc : ServiceDesc)
    (svcUnary : String → UnaryMethod)
    (svcStream : String → List StreamOp × Option GoError) (hs : Handlers)
    (k : String) (ctx : Ctx) (p : ProxyRequest)
    (hm : desc.methods = [])
    (hc : ∀ s ∈ desc.streams, s.clientStreams = true) :
    RegisterGRPCService desc svcUnary svcStream hs k = hs k
    ∧ HandleLambda (fun _ _ => .found k)
        (RegisterGRPCService desc svcUnary svcStream (fun _ => none)) ctx p =
      (defaultResponse, none) := by
  have hreg : ∀ hs0 : Handlers,
      RegisterGRPCService desc svcUnary svcStream hs0 = hs0 := by
    intro hs0
    unfold RegisterGRPCService
    rw [hm]
    simpa using streams_foldl_skip desc.serviceName svcStream desc.streams hs0 hc
  refine ⟨by rw [hreg hs], ?_⟩
  rw [hreg (fun _ => none)]
  rfl

/-- Witness for the amended C8 at the concrete bidi descriptor. -/
theorem registerGRPCService_skips_client_streams_witness :
    RegisterGRPCService exBidiDesc exSvcUnary exSvcStream (fun _ => none)
        "/svc/Bidi" = none
    ∧ HandleLambda (fun _ _ => .found "/svc/Bidi")
        (RegisterGRPCService exBidiDesc exSvcUnary exSvcStream (fun _ => none))
        exCtx exProxyReq = (defaultResponse, none) :=
  registerGRPCService_skips_client_streams exBidiDesc exSvcUnary exSvcStream
    (fun _ => none) "/svc/Bidi" exCtx exProxyReq rfl
    (by
      intro s hsmem
      simp only [exBidiDesc, List.mem_singleton] at hsmem
      subst hsmem
      rfl)

/-- Claim C9 counterexample: encode a non-empty message (flag becomes
true), then clear via a nil send — the body is now empty while the base64
flag is still true, so the flag-iff-non-empty-base64-body invariant fails
after this operation sequence. -/
theorem base64_flag_invariant_counterexample :
    ((newGrpcServerStream exCtx exReq
        (defaultResponse.MarshalProtobuf [1])).SendMsg none).1.res.body = []
    ∧ ((newGrpcServerStream exCtx exReq
        (defaultResponse.MarshalProtobuf [1])).SendMsg
          none).1.res.isBase64Encoded = true :=
  ⟨rfl, rfl⟩

theorem base64Encode_ne_nil (bs : GoStr) (h : bs ≠ []) :
    base64Encode bs ≠ [] := by
  match bs with
  | [] => exact absurd rfl h
  | [b0] => simp [base64Encode, encodeSextets]
  | [b0, b1] => simp [base64Encode, encodeSextets]
  | b0 :: b1 :: b2 :: rest => simp [base64Encode, encodeSextets]

/-- Claim C9 (amended): `MarshalProtobuf` establishes the invariant —
after encoding, the base64 flag is true iff the body is non-empty, and a
true flag means the body decodes back to the serialized message; but
`SendMsg` with a nil message clears only the body and leaves the flag
unchanged, so after a non-empty encode followed by a nil send the flag
can be true with an empty body. -/
theorem marshal_establishes_flag_invariant (res : Response) (m : Msg)
    (g : GrpcServerStream) (hbytes : ∀ b ∈ m, b < 256) :
    ((res.MarshalProtobuf m).isBase64Encoded = true ↔
      (res.MarshalProtobuf m).body ≠ [])
    ∧ ((res.MarshalProtobuf m).isBase64Encoded = true →
        base64Decode (res.MarshalProtobuf m).body = some m)
    ∧ (g.SendMsg none).1.res.body = []
    ∧ (g.SendMsg none).1.res.isBase64Encoded = g.res.isBase64Encoded := by
  refine ⟨?_, ?_, rfl, rfl⟩
  · by_cases hm : 0 < m.length
    · have hne : m ≠ [] := by cases m <;> simp_all
      simp [Response.MarshalProtobuf, hm, base64Encode_ne_nil m hne]
    · simp [Response.MarshalProtobuf, hm]
  · by_cases hm : 0 < m.length
    · intro _
      simp [Response.MarshalProtobuf, hm, base64Decode_base64Encode m hbytes]
    · simp [Response.MarshalProtobuf, hm]

/-- Witness for the amended C9 at the one-byte message `[1]`. -/
theorem marshal_establishes_flag_invariant_witness :
    ((defaultResponse.MarshalProtobuf [1]).isBase64Encoded = true ↔
      (defaultResponse.MarshalProtobuf [1]).body ≠ [])
    ∧ ((defaultResponse.MarshalProtobuf [1]).isBase64Encoded = true →
        base64Decode (defaultResponse.MarshalProtobuf [1]).body = some [1])
    ∧ ((newGrpcServerStream exCtx exReq defaultResponse).SendMsg
        none).1.res.body = []
    ∧ ((newGrpcServerStream exCtx exReq defaultResponse).SendMsg
        none).1.res.isBase64Encoded =
      (newGrpcServerStream exCtx exReq defaultResponse).res.isBase64Encoded :=
  marshal_establishes_flag_invariant defaultResponse [1]
    (newGrpcServerStream exCtx exReq defaultResponse) (by decide)

/-- Claim C10: a unary invocation whose method returns a nil output
message and a nil error clears the body and returns nil, so the
dispatched response has status 200 and an empty body. -/
theorem unary_nil_output_gives_200_empty (matcher : Matcher)
    (handlers : Handlers) (ctx : Ctx) (p : ProxyRequest) (key : String)
    (method : UnaryMethod) (m : Msg)
    (hmatch : matcher ctx p = .found key)
    (hbind : handlers key = some (unaryHandler method))
    (hdec : Request.UnmarshalProtobuf { toProxy := p, handlerKey := key } =
      some m)
    (hmethod : ∀ c i, (method c i).output = none ∧ (method c i).error = none) :
    (HandleLambda matcher handlers ctx p).1.statusCode = 200
    ∧ (HandleLambda matcher handlers ctx p).1.body = []
    ∧ (HandleLambda matcher handlers ctx p).2 = none := by
  unfold HandleLambda
  rw [hmatch]
  dsimp only
  rw [hbind]
  dsimp only
  unfold unaryHandler
  dsimp only
  rw [hdec]
  dsimp only
  obtain ⟨ho, he⟩ := hmethod
    { incoming := some (inboundMeta p), outgoing := some mdEmpty } m
  cases hctx : ctx.outgoing <;> simp [he, ho]

/-- Witness for C10 at a concrete matcher, registry and method. -/
theorem unary_nil_output_gives_200_empty_witness :
    (HandleLambda (fun _ _ => .found "/svc/Echo")
        (RegisterHandler (fun _ => none) "/svc/Echo"
          (unaryHandler exNilMethod)) exCtx exProxyReq).1.statusCode = 200
    ∧ (HandleLambda (fun _ _ => .found "/svc/Echo")
        (RegisterHandler (fun _ => none) "/svc/Echo"
          (unaryHandler exNilMethod)) exCtx exProxyReq).1.body = []
    ∧ (HandleLambda (fun _ _ => .found "/svc/Echo")
        (RegisterHandler (fun _ => none) "/svc/Echo"
          (unaryHandler exNilMethod)) exCtx exProxyReq).2 = none :=
  unary_nil_output_gives_200_empty (fun _ _ => .found "/svc/Echo")
    (RegisterHandler (fun _ => none) "/svc/Echo" (unaryHandler exNilMethod))
    exCtx exProxyReq "/svc/Echo" exNilMethod [] rfl
    (by simp [RegisterHandler]) rfl (fun _ _ => ⟨rfl, rfl⟩)

end Protomesh
